import Mathlib

/-!
Shallow embedding of `backend/ai_generator.py` (class `AIGenerator`): the
bounded tool-calling orchestration loop `generate_response` /
`_handle_tool_execution` / `_extract_text`, instrumented so that every
outgoing model-service request and every `execute_tool` invocation is
recorded in a trace.

Modelling conventions:
- the model service is a total function `service : Nat → Response`, where
  `service n` is the response to the (n+1)-th API call of one
  `generate_response` execution (the code's `self.client.messages.create`);
- a raised Python exception from `tool_manager.execute_tool` is an
  `Except.error msg` value, where `msg` is the exception's message text;
- an optional dict key (the `"tools"` / `"is_error"` keys) is an `Option`
  field, `none` meaning the key is absent;
- Python truthiness of optional arguments (`if tools:`,
  `if conversation_history:`) is modelled by explicit truthiness functions.
-/

namespace RagChatbot

/-- The class constant `AIGenerator.MAX_TOOL_ROUNDS`: counts tool-execution
rounds, not total API calls. -/
def MAX_TOOL_ROUNDS : Nat := 2

/-- The class constant `AIGenerator.SYSTEM_PROMPT` (verbatim). -/
def SYSTEM_PROMPT : String :=
" You are an AI assistant specialized in course materials and educational content with access to a comprehensive search tool for course information.

Tool Selection Rules (follow strictly):
1. **Lesson list / course outline / \"what lessons\" / \"show me the syllabus\"** → MUST use `get_course_outline`. Never use `search_course_content` for these queries.
2. **Questions about specific course content, concepts, or explanations** → use `search_course_content`
3. **General knowledge questions unrelated to a specific course** → answer directly, no tool
4. **Complex multi-part queries** (e.g., \"find a course on the same topic as lesson 4 of course X\") → use up to 2 sequential tool calls: first retrieve what you need, then search using that information.

Sequential Tool Use:
- You may make up to 2 tool calls in separate request rounds before giving your final answer.
- After receiving the results of your first tool call, evaluate whether you have enough information to answer completely. If not, make one additional tool call.
- Your final response must always be a natural language answer — never a tool call.
- If a tool returns no results or an error, say so clearly and answer with what you have.

When using `get_course_outline`, present:
- The course title and link
- Every lesson as: \"Lesson N: <title>\"

Response rules:
- Fact-based answers only — do not guess or invent lesson titles
- If a tool yields no results, say so clearly
- No meta-commentary: no \"based on the search results\", no explanation of tool usage


All responses must be:
1. **Brief, Concise and focused** - Get to the point quickly
2. **Educational** - Maintain instructional value
3. **Clear** - Use accessible language
4. **Example-supported** - Include relevant examples when they aid understanding
Provide only the direct answer to what was asked.
"

/-- A content block of a model response. `text t` is a TextBlock (it has a
`.text` attribute); `toolUse id name input` is a ToolUseBlock
(`type == "tool_use"`, with `id`, `name` and keyword-argument `input`);
`other` is any block with neither a `.text` attribute nor type
`"tool_use"`. -/
inductive ContentBlock where
  | text (t : String)
  | toolUse (id name : String) (input : List (String × String))
  | other
deriving Repr, DecidableEq

/-- A model-service response: `stop_reason` and the ordered content blocks. -/
structure Response where
  stop_reason : String
  content : List ContentBlock
deriving Repr, DecidableEq

/-- A `tool_result` block dict built inside `_handle_tool_execution`.
`is_error = none` models the absence of the `"is_error"` key in the Python
dict; `is_error = some b` models the key being present with value `b`. -/
structure ToolResultBlock where
  tool_use_id : String
  content : String
  is_error : Option Bool
deriving Repr, DecidableEq

/-- The content of a message in the `messages` list: the user's query
string, assistant content blocks, or a list of tool_result blocks. -/
inductive MsgContent where
  | ofString (s : String)
  | blocks (bs : List ContentBlock)
  | results (rs : List ToolResultBlock)
deriving Repr, DecidableEq

/-- A role-tagged message of the `messages` list. -/
structure Message where
  role : String
  content : MsgContent
deriving Repr, DecidableEq

/-- The parts of an outgoing API request that the orchestration logic
controls: `messages`, `system`, and the optional `tools` / `tool_choice`
keys. `tools = none` models the `"tools"` key being absent;
`tool_choice_auto` is `true` exactly when the request carries
`tool_choice = {type: "auto"}`. -/
structure Request where
  messages : List Message
  system : String
  tools : Option (List String)
  tool_choice_auto : Bool
deriving Repr, DecidableEq

/-- One model-service call: the request issued and the response received. -/
structure CallRecord where
  request : Request
  response : Response
deriving Repr, DecidableEq

/-- The instrumented outcome of `generate_response`: the returned string,
the list of model-service calls in order, and the list of
`execute_tool` invocations `(name, kwargs)` in order. -/
structure GenOut where
  result : String
  calls : List CallRecord
  toolTrace : List (String × List (String × String))
deriving Repr, DecidableEq

/-- Python truthiness of the optional tools list (`if tools:`):
`None` and the empty list are falsy. -/
def toolsTruthy : Option (List String) → Bool
  | none => false
  | some l => !l.isEmpty

/-- Python truthiness of the optional history string
(`if conversation_history:`): `None` and `""` are falsy. -/
def historyTruthy : Option String → Bool
  | none => false
  | some s => !s.isEmpty

/-- The `system_content` expression of `generate_response`: the system
prompt, suffixed with the previous conversation when one was given. -/
def sysContent (conversation_history : Option String) : String :=
  if historyTruthy conversation_history then
    SYSTEM_PROMPT ++ "\n\nPrevious conversation:\n" ++ conversation_history.getD ""
  else
    SYSTEM_PROMPT

/-- `AIGenerator._extract_text`: extract the text of a response, returning a
descriptive error string on failure. -/
def extract_text (r : Response) : String :=
  match r.content with
  | [] => "Received empty response from AI service."
  | first :: _ =>
    match first with
    | .text t => t
    | .toolUse _ _ _ =>
        "Could not generate a text response within the allowed tool-use rounds."
    | .other => "Received unexpected response format from AI service."

/-- The per-round dispatch loop of `_handle_tool_execution`: one
`tool_result` block per `tool_use` block, in block order. A successful
`execute_tool` call yields `{tool_use_id, content}` (no `is_error` key); a
raised exception is caught and converted to
`{tool_use_id, content: "Error executing tool: <message>", is_error: true}`. -/
def runTools (tool_exec : String → List (String × String) → Except String String) :
    List ContentBlock → List ToolResultBlock
  | [] => []
  | .toolUse id name input :: rest =>
      (match tool_exec name input with
        | .ok result =>
            { tool_use_id := id, content := result, is_error := none }
        | .error exc =>
            { tool_use_id := id, content := "Error executing tool: " ++ exc,
              is_error := some true }) :: runTools tool_exec rest
  | .text _ :: rest => runTools tool_exec rest
  | .other :: rest => runTools tool_exec rest

/-- The `(name, kwargs)` of the `execute_tool` invocations issued for a
content list, in block order — exactly one per `tool_use` block. -/
def toolInvocations : List ContentBlock → List (String × List (String × String))
  | [] => []
  | .toolUse _ name input :: rest => (name, input) :: toolInvocations rest
  | .text _ :: rest => toolInvocations rest
  | .other :: rest => toolInvocations rest

/-- The `id`s of the `tool_use` blocks of a content list, in block order. -/
def toolUseIds : List ContentBlock → List String
  | [] => []
  | .toolUse id _ _ :: rest => id :: toolUseIds rest
  | .text _ :: rest => toolUseIds rest
  | .other :: rest => toolUseIds rest

/-- The `for round_num in range(MAX_TOOL_ROUNDS)` loop of
`_handle_tool_execution`, with `remaining = MAX_TOOL_ROUNDS - round_num`
rounds left (so `allow_another_round = round_num < MAX_TOOL_ROUNDS - 1`
becomes `0 < remaining - 1`). `callIdx` counts the model-service calls made
so far; `calls` and `trace` accumulate the instrumentation. -/
def toolRounds (service : Nat → Response)
    (tool_exec : String → List (String × String) → Except String String)
    (system : String) (tools : Option (List String)) :
    Nat → List Message → Response → Nat → List CallRecord →
    List (String × List (String × String)) → GenOut
  | 0, _msgs, current_response, _callIdx, calls, trace =>
      { result := extract_text current_response, calls := calls, toolTrace := trace }
  | r + 1, msgs, current_response, callIdx, calls, trace =>
      let tool_results := runTools tool_exec current_response.content
      let trace' := trace ++ toolInvocations current_response.content
      if tool_results.isEmpty then
        { result := "Received malformed tool_use response: no tool_use blocks found.",
          calls := calls, toolTrace := trace' }
      else
        let msgs' := msgs ++ [⟨"user", .results tool_results⟩]
        let allow_another_round := decide (0 < r)
        let round_request : Request :=
          { messages := msgs', system := system,
            tools := if allow_another_round && toolsTruthy tools then tools else none,
            tool_choice_auto := allow_another_round && toolsTruthy tools }
        let resp := service callIdx
        let calls' := calls ++ [⟨round_request, resp⟩]
        if resp.stop_reason ≠ "tool_use" then
          { result := extract_text resp, calls := calls', toolTrace := trace' }
        else
          toolRounds service tool_exec system tools r
            (msgs' ++ [⟨"assistant", .blocks resp.content⟩]) resp (callIdx + 1)
            calls' trace'

/-- `AIGenerator._handle_tool_execution`: copy the initial messages, append
the model's tool-use content as an assistant turn, and run the round loop. -/
def handle_tool_execution (service : Nat → Response)
    (tool_exec : String → List (String × String) → Except String String)
    (initial_response : Response) (initial_messages : List Message)
    (system : String) (tools : Option (List String))
    (initCalls : List CallRecord) : GenOut :=
  toolRounds service tool_exec system tools MAX_TOOL_ROUNDS
    (initial_messages ++ [⟨"assistant", .blocks initial_response.content⟩])
    initial_response 1 initCalls []

/-- `AIGenerator.generate_response`, instrumented: returns the produced
string together with the trace of model-service calls and `execute_tool`
invocations. `tool_manager = none` models `tool_manager=None`. -/
def generate_response (service : Nat → Response) (query : String)
    (conversation_history : Option String) (tools : Option (List String))
    (tool_manager : Option (String → List (String × String) → Except String String)) :
    GenOut :=
  let system_content := sysContent conversation_history
  let apiTools := if toolsTruthy tools then tools else none
  let initial_request : Request :=
    { messages := [⟨"user", .ofString query⟩], system := system_content,
      tools := apiTools, tool_choice_auto := toolsTruthy tools }
  let response := service 0
  if response.stop_reason = "tool_use" then
    match tool_manager with
    | some tm =>
        handle_tool_execution service tm response
          [⟨"user", .ofString query⟩] system_content apiTools
          [⟨initial_request, response⟩]
    | none =>
        { result := "Unable to search: tool manager not configured.",
          calls := [⟨initial_request, response⟩], toolTrace := [] }
  else
    { result := extract_text response,
      calls := [⟨initial_request, response⟩], toolTrace := [] }

/-- Statement helper: the concatenation, in order, of the `execute_tool`
invocations demanded by the first `k` responses of a service. -/
def traceUpTo (service : Nat → Response) : Nat → List (String × List (String × String))
  | 0 => []
  | k + 1 => traceUpTo service k ++ toolInvocations (service k).content

/-- Statement helper: the roles of a message list strictly alternate,
expecting `"user"` first when `expectUser = true`. -/
def altRoles : Bool → List Message → Bool
  | _, [] => true
  | b, m :: rest =>
      (m.role == (if b then "user" else "assistant")) && altRoles (!b) rest

/-- Statement helper: `subOf pat s` is true exactly when `pat` occurs as a
contiguous sublist of `s` (substring containment on character lists). -/
def subOf (pat : List Char) : List Char → Bool
  | [] => pat.isEmpty
  | c :: rest => pat.isPrefixOf (c :: rest) || subOf pat rest

/-- Statement helper: the initial request built by `generate_response`. -/
def initialReq (query : String) (hist : Option String)
    (tools : Option (List String)) : Request :=
  { messages := [⟨"user", .ofString query⟩], system := sysContent hist,
    tools := if toolsTruthy tools then tools else none,
    tool_choice_auto := toolsTruthy tools }

/-- Statement helper: the request issued at round 0 of the round loop. -/
def round0Req (service : Nat → Response)
    (te : String → List (String × String) → Except String String)
    (query : String) (hist : Option String) (tools : Option (List String)) : Request :=
  { messages :=
      [⟨"user", .ofString query⟩, ⟨"assistant", .blocks (service 0).content⟩,
       ⟨"user", .results (runTools te (service 0).content)⟩],
    system := sysContent hist,
    tools := if toolsTruthy tools then tools else none,
    tool_choice_auto := toolsTruthy tools }

/-- Statement helper: the request issued at round 1 (the final permitted
round): no `tools` key, no `tool_choice` key. -/
def round1Req (service : Nat → Response)
    (te : String → List (String × String) → Except String String)
    (query : String) (hist : Option String) : Request :=
  { messages :=
      [⟨"user", .ofString query⟩, ⟨"assistant", .blocks (service 0).content⟩,
       ⟨"user", .results (runTools te (service 0).content)⟩,
       ⟨"assistant", .blocks (service 1).content⟩,
       ⟨"user", .results (runTools te (service 1).content)⟩],
    system := sysContent hist,
    tools := none,
    tool_choice_auto := false }

/- ------------------------------------------------------------------ -/
/- Concrete inputs used by witnesses and counterexamples              -/
/- ------------------------------------------------------------------ -/

/-- A tool manager whose `execute_tool` always succeeds. -/
def okExec : String → List (String × String) → Except String String :=
  fun _ _ => .ok "ok result"

/-- A tool manager whose `execute_tool` always raises
`RuntimeError("Connection timeout")`. -/
def errExec : String → List (String × String) → Except String String :=
  fun _ _ => .error "Connection timeout"

/-- A service: one tool_use response, then a text answer. -/
def svcTwoCall : Nat → Response := fun n =>
  if n = 0 then
    ⟨"tool_use", [.toolUse "tu_1" "search_course_content" [("query", "x")]]⟩
  else ⟨"end_turn", [.text "Final answer."]⟩

/-- A service that always answers with a well-formed tool_use response. -/
def svcAllTool : Nat → Response := fun _ =>
  ⟨"tool_use", [.toolUse "tu_x" "search_course_content" [("query", "x")]]⟩

/-- A service whose first two responses are well-formed tool_use responses
and whose third (final-round) response is still tool_use but leads with a
text block. -/
def svcC4 : Nat → Response := fun n =>
  if n = 0 then
    ⟨"tool_use", [.toolUse "tu_1" "search_course_content" [("query", "a")]]⟩
  else if n = 1 then
    ⟨"tool_use", [.toolUse "tu_2" "search_course_content" [("query", "b")]]⟩
  else
    ⟨"tool_use", [.text "Partial thoughts so far.",
                  .toolUse "tu_3" "search_course_content" [("query", "c")]]⟩

/-- A service whose first two responses are well-formed tool_use responses
and whose third (final-round) response is malformed: `stop_reason`
`tool_use` with zero tool_use blocks. -/
def svcC6 : Nat → Response := fun n =>
  if n = 0 then
    ⟨"tool_use", [.toolUse "tu_1" "search_course_content" [("query", "a")]]⟩
  else if n = 1 then
    ⟨"tool_use", [.toolUse "tu_2" "search_course_content" [("query", "b")]]⟩
  else ⟨"tool_use", [.text "odd reply"]⟩

/-- A service whose initial response is malformed: `stop_reason` `tool_use`
with zero tool_use blocks. -/
def svcMalformed : Nat → Response := fun _ =>
  ⟨"tool_use", [.text "unexpected text"]⟩

/-- The round-0 call record of `generate_response svcTwoCall ...`, used to
instantiate the round-loop invariant. -/
def cW : CallRecord :=
  ⟨round0Req svcTwoCall okExec "q" none (some ["search_course_content"]),
   svcTwoCall 1⟩

/- ------------------------------------------------------------------ -/
/- Helper lemmas                                                      -/
/- ------------------------------------------------------------------ -/

theorem toolRounds_zero (service : Nat → Response)
    (te : String → List (String × String) → Except String String)
    (sys : String) (tools : Option (List String)) (msgs : List Message)
    (current : Response) (callIdx : Nat) (calls : List CallRecord)
    (trace : List (String × List (String × String))) :
    toolRounds service te sys tools 0 msgs current callIdx calls trace =
      { result := extract_text current, calls := calls, toolTrace := trace } := rfl

theorem toolRounds_succ (service : Nat → Response)
    (te : String → List (String × String) → Except String String)
    (sys : String) (tools : Option (List String)) (r : Nat) (msgs : List Message)
    (current : Response) (callIdx : Nat) (calls : List CallRecord)
    (trace : List (String × List (String × String))) :
    toolRounds service te sys tools (r + 1) msgs current callIdx calls trace =
      if (runTools te current.content).isEmpty then
        { result := "Received malformed tool_use response: no tool_use blocks found.",
          calls := calls, toolTrace := trace ++ toolInvocations current.content }
      else
        let msgs' := msgs ++ [⟨"user", .results (runTools te current.content)⟩]
        let round_request : Request :=
          { messages := msgs', system := sys,
            tools := if decide (0 < r) && toolsTruthy tools then tools else none,
            tool_choice_auto := decide (0 < r) && toolsTruthy tools }
        if (service callIdx).stop_reason ≠ "tool_use" then
          { result := extract_text (service callIdx),
            calls := calls ++ [⟨round_request, service callIdx⟩],
            toolTrace := trace ++ toolInvocations current.content }
        else
          toolRounds service te sys tools r
            (msgs' ++ [⟨"assistant", .blocks (service callIdx).content⟩])
            (service callIdx) (callIdx + 1)
            (calls ++ [⟨round_request, service callIdx⟩])
            (trace ++ toolInvocations current.content) := rfl

theorem runTools_isEmpty_eq (te : String → List (String × String) → Except String String)
    (bs : List ContentBlock) :
    (runTools te bs).isEmpty = (toolInvocations bs).isEmpty := by
  induction bs with
  | nil => rfl
  | cons b rest ih =>
    cases b with
    | text t => simpa [runTools, toolInvocations] using ih
    | toolUse id name input =>
      cases h : te name input <;> simp [runTools, toolInvocations, h]
    | other => simpa [runTools, toolInvocations] using ih

theorem runTools_map_ids (te : String → List (String × String) → Except String String)
    (bs : List ContentBlock) :
    (runTools te bs).map (fun t => t.tool_use_id) = toolUseIds bs := by
  induction bs with
  | nil => rfl
  | cons b rest ih =>
    cases b with
    | text t => simpa [runTools, toolUseIds] using ih
    | toolUse id name input =>
      cases h : te name input <;> simp [runTools, toolUseIds, h, ih]
    | other => simpa [runTools, toolUseIds] using ih

theorem runTools_append (te : String → List (String × String) → Except String String)
    (xs ys : List ContentBlock) :
    runTools te (xs ++ ys) = runTools te xs ++ runTools te ys := by
  induction xs with
  | nil => rfl
  | cons b rest ih =>
    cases b with
    | text t => simpa [runTools] using ih
    | toolUse id name input =>
      cases h : te name input <;> simp [runTools, h, ih]
    | other => simpa [runTools] using ih

theorem runTools_cons_ok (te : String → List (String × String) → Except String String)
    (id name : String) (input : List (String × String)) (res : String)
    (rest : List ContentBlock) (h : te name input = .ok res) :
    runTools te (ContentBlock.toolUse id name input :: rest) =
      { tool_use_id := id, content := res, is_error := none } :: runTools te rest := by
  simp [runTools, h]

theorem runTools_cons_err (te : String → List (String × String) → Except String String)
    (id name : String) (input : List (String × String)) (msg : String)
    (rest : List ContentBlock) (h : te name input = .error msg) :
    runTools te (ContentBlock.toolUse id name input :: rest) =
      { tool_use_id := id, content := "Error executing tool: " ++ msg,
        is_error := some true } :: runTools te rest := by
  simp [runTools, h]

theorem toolsTruthy_norm (tools : Option (List String)) :
    toolsTruthy (if toolsTruthy tools then tools else none) = toolsTruthy tools := by
  cases tools with
  | none => rfl
  | some l => cases h : l.isEmpty <;> simp [toolsTruthy, h]

theorem toolInvocations_append (xs ys : List ContentBlock) :
    toolInvocations (xs ++ ys) = toolInvocations xs ++ toolInvocations ys := by
  induction xs with
  | nil => rfl
  | cons b rest ih => cases b <;> simp [toolInvocations, ih]

theorem toolRounds_one (service : Nat → Response)
    (te : String → List (String × String) → Except String String)
    (sys : String) (tools : Option (List String)) (msgs : List Message)
    (current : Response) (callIdx : Nat) (calls : List CallRecord)
    (trace : List (String × List (String × String))) :
    toolRounds service te sys tools 1 msgs current callIdx calls trace =
      if (runTools te current.content).isEmpty then
        { result := "Received malformed tool_use response: no tool_use blocks found.",
          calls := calls, toolTrace := trace ++ toolInvocations current.content }
      else
        let msgs' := msgs ++ [⟨"user", .results (runTools te current.content)⟩]
        let round_request : Request :=
          { messages := msgs', system := sys, tools := none, tool_choice_auto := false }
        if (service callIdx).stop_reason ≠ "tool_use" then
          { result := extract_text (service callIdx),
            calls := calls ++ [⟨round_request, service callIdx⟩],
            toolTrace := trace ++ toolInvocations current.content }
        else
          toolRounds service te sys tools 0
            (msgs' ++ [⟨"assistant", .blocks (service callIdx).content⟩])
            (service callIdx) (callIdx + 1)
            (calls ++ [⟨round_request, service callIdx⟩])
            (trace ++ toolInvocations current.content) := rfl

theorem gen_no_tool_use (service : Nat → Response) (query : String)
    (hist : Option String) (tools : Option (List String))
    (tm : Option (String → List (String × String) → Except String String))
    (h0 : (service 0).stop_reason ≠ "tool_use") :
    generate_response service query hist tools tm =
      { result := extract_text (service 0),
        calls := [⟨initialReq query hist tools, service 0⟩], toolTrace := [] } := by
  simp only [generate_response, initialReq]
  rw [if_neg h0]

theorem gen_no_manager (service : Nat → Response) (query : String)
    (hist : Option String) (tools : Option (List String))
    (h0 : (service 0).stop_reason = "tool_use") :
    generate_response service query hist tools none =
      { result := "Unable to search: tool manager not configured.",
        calls := [⟨initialReq query hist tools, service 0⟩], toolTrace := [] } := by
  simp only [generate_response, initialReq]
  rw [if_pos h0]

theorem gen_malformed0 (service : Nat → Response)
    (te : String → List (String × String) → Except String String) (query : String)
    (hist : Option String) (tools : Option (List String))
    (h0 : (service 0).stop_reason = "tool_use")
    (hm : toolInvocations (service 0).content = []) :
    generate_response service query hist tools (some te) =
      { result := "Received malformed tool_use response: no tool_use blocks found.",
        calls := [⟨initialReq query hist tools, service 0⟩], toolTrace := [] } := by
  have hne : (runTools te (service 0).content).isEmpty = true := by
    rw [runTools_isEmpty_eq, hm]; rfl
  simp only [generate_response, handle_tool_execution, initialReq]
  rw [if_pos h0]
  rw [show MAX_TOOL_ROUNDS = 1 + 1 from rfl, toolRounds_succ, if_pos hne, hm]
  simp

theorem gen_round0_break (service : Nat → Response)
    (te : String → List (String × String) → Except String String) (query : String)
    (hist : Option String) (tools : Option (List String))
    (h0 : (service 0).stop_reason = "tool_use")
    (hnb : toolInvocations (service 0).content ≠ [])
    (h1 : (service 1).stop_reason ≠ "tool_use") :
    generate_response service query hist tools (some te) =
      { result := extract_text (service 1),
        calls := [⟨initialReq query hist tools, service 0⟩,
                  ⟨round0Req service te query hist tools, service 1⟩],
        toolTrace := toolInvocations (service 0).content } := by
  have hne : (runTools te (service 0).content).isEmpty = false := by
    rw [runTools_isEmpty_eq]
    cases hh : toolInvocations (service 0).content with
    | nil => exact absurd hh hnb
    | cons a l => rfl
  simp only [generate_response, handle_tool_execution, initialReq, round0Req]
  rw [if_pos h0]
  rw [show MAX_TOOL_ROUNDS = 1 + 1 from rfl, toolRounds_succ, hne]
  simp only [Bool.false_eq_true, if_false]
  rw [if_pos h1]
  simp [toolsTruthy_norm]
  cases htt : toolsTruthy tools <;> simp [htt]

theorem gen_malformed1 (service : Nat → Response)
    (te : String → List (String × String) → Except String String) (query : String)
    (hist : Option String) (tools : Option (List String))
    (h0 : (service 0).stop_reason = "tool_use")
    (hnb0 : toolInvocations (service 0).content ≠ [])
    (h1 : (service 1).stop_reason = "tool_use")
    (hm1 : toolInvocations (service 1).content = []) :
    generate_response service query hist tools (some te) =
      { result := "Received malformed tool_use response: no tool_use blocks found.",
        calls := [⟨initialReq query hist tools, service 0⟩,
                  ⟨round0Req service te query hist tools, service 1⟩],
        toolTrace := toolInvocations (service 0).content } := by
  have hne0 : (runTools te (service 0).content).isEmpty = false := by
    rw [runTools_isEmpty_eq]
    cases hh : toolInvocations (service 0).content with
    | nil => exact absurd hh hnb0
    | cons a l => rfl
  have hne1 : (runTools te (service 1).content).isEmpty = true := by
    rw [runTools_isEmpty_eq, hm1]; rfl
  simp only [generate_response, handle_tool_execution, initialReq, round0Req]
  rw [if_pos h0]
  rw [show MAX_TOOL_ROUNDS = 1 + 1 from rfl, toolRounds_succ, hne0]
  simp only [Bool.false_eq_true, if_false]
  rw [if_neg (fun hc => hc h1), toolRounds_one, if_pos hne1, hm1]
  simp [toolsTruthy_norm]
  cases htt : toolsTruthy tools <;> simp [htt]

theorem gen_full (service : Nat → Response)
    (te : String → List (String × String) → Except String String) (query : String)
    (hist : Option String) (tools : Option (List String))
    (h0 : (service 0).stop_reason = "tool_use")
    (hnb0 : toolInvocations (service 0).content ≠ [])
    (h1 : (service 1).stop_reason = "tool_use")
    (hnb1 : toolInvocations (service 1).content ≠ []) :
    generate_response service query hist tools (some te) =
      { result := extract_text (service 2),
        calls := [⟨initialReq query hist tools, service 0⟩,
                  ⟨round0Req service te query hist tools, service 1⟩,
                  ⟨round1Req service te query hist, service 2⟩],
        toolTrace := toolInvocations (service 0).content ++
                     toolInvocations (service 1).content } := by
  have hne0 : (runTools te (service 0).content).isEmpty = false := by
    rw [runTools_isEmpty_eq]
    cases hh : toolInvocations (service 0).content with
    | nil => exact absurd hh hnb0
    | cons a l => rfl
  have hne1 : (runTools te (service 1).content).isEmpty = false := by
    rw [runTools_isEmpty_eq]
    cases hh : toolInvocations (service 1).content with
    | nil => exact absurd hh hnb1
    | cons a l => rfl
  simp only [generate_response, handle_tool_execution, initialReq, round0Req, round1Req]
  rw [if_pos h0]
  rw [show MAX_TOOL_ROUNDS = 1 + 1 from rfl, toolRounds_succ, hne0]
  simp only [Bool.false_eq_true, if_false]
  rw [if_neg (fun hc => hc h1), toolRounds_one, hne1]
  simp only [Bool.false_eq_true, if_false]
  by_cases h2 : (service 2).stop_reason ≠ "tool_use"
  · rw [if_pos h2]
    simp [toolsTruthy_norm]
    cases htt : toolsTruthy tools <;> simp [htt]
  · rw [if_neg h2, toolRounds_zero]
    simp [toolsTruthy_norm]
    cases htt : toolsTruthy tools <;> simp [htt]


/- ------------------------------------------------------------------ -/
/- Claim theorems                                                     -/
/- ------------------------------------------------------------------ -/

/-- Claim C1: for every execution of `generate_response`, whatever sequence of
responses the model service returns, the total number of model-service calls
issued is at most `1 + MAX_TOOL_ROUNDS` (3 with the default
`MAX_TOOL_ROUNDS = 2`). Termination returning a string is inherent in the
embedding: `generate_response` is a total Lean function into `GenOut`, whose
`result` field is a `String`. -/
theorem generate_response_call_bound (service : Nat → Response) (query : String)
    (hist : Option String) (tools : Option (List String))
    (tm : Option (String → List (String × String) → Except String String)) :
    (generate_response service query hist tools tm).calls.length ≤ 1 + MAX_TOOL_ROUNDS := by
  by_cases h0 : (service 0).stop_reason = "tool_use"
  · cases tm with
    | none => rw [gen_no_manager service query hist tools h0]; simp [MAX_TOOL_ROUNDS]
    | some te =>
      by_cases hm : toolInvocations (service 0).content = []
      · rw [gen_malformed0 service te query hist tools h0 hm]; simp [MAX_TOOL_ROUNDS]
      · by_cases h1 : (service 1).stop_reason = "tool_use"
        · by_cases hm1 : toolInvocations (service 1).content = []
          · rw [gen_malformed1 service te query hist tools h0 hm h1 hm1]
            simp [MAX_TOOL_ROUNDS]
          · rw [gen_full service te query hist tools h0 hm h1 hm1]
            simp [MAX_TOOL_ROUNDS]
        · rw [gen_round0_break service te query hist tools h0 hm h1]
          simp [MAX_TOOL_ROUNDS]
  · rw [gen_no_tool_use service query hist tools tm h0]; simp [MAX_TOOL_ROUNDS]

/-- Claim C2: in every run of the round loop with a non-empty tool catalog
supplied, the request of every round before the final permitted one (with
`MAX_TOOL_ROUNDS = 2`, round 0, i.e. call index 1) carries the `tools` key
with `tool_choice {type: auto}`, while the request of the final permitted
round (`round = MAX_TOOL_ROUNDS - 1`, call index 2) carries neither. -/
theorem final_round_omits_tools (service : Nat → Response)
    (te : String → List (String × String) → Except String String) (query : String)
    (hist : Option String) (tools : Option (List String))
    (htools : toolsTruthy tools = true) :
    (∀ h : 1 < (generate_response service query hist tools (some te)).calls.length,
      ((generate_response service query hist tools (some te)).calls.get ⟨1, h⟩).request.tools
          = tools ∧
      ((generate_response service query hist tools (some te)).calls.get
          ⟨1, h⟩).request.tool_choice_auto = true) ∧
    (∀ h : 2 < (generate_response service query hist tools (some te)).calls.length,
      ((generate_response service query hist tools (some te)).calls.get ⟨2, h⟩).request.tools
          = none ∧
      ((generate_response service query hist tools (some te)).calls.get
          ⟨2, h⟩).request.tool_choice_auto = false) := by
  by_cases h0 : (service 0).stop_reason = "tool_use"
  · by_cases hm : toolInvocations (service 0).content = []
    · rw [gen_malformed0 service te query hist tools h0 hm]
      refine ⟨fun h => ?_, fun h => ?_⟩ <;> simp at h
    · by_cases h1 : (service 1).stop_reason = "tool_use"
      · by_cases hm1 : toolInvocations (service 1).content = []
        · rw [gen_malformed1 service te query hist tools h0 hm h1 hm1]
          refine ⟨fun h => ?_, fun h => ?_⟩
          · simp [List.get, round0Req, htools]
          · simp at h
        · rw [gen_full service te query hist tools h0 hm h1 hm1]
          refine ⟨fun h => ?_, fun h => ?_⟩
          · simp [List.get, round0Req, htools]
          · simp [List.get, round1Req]
      · rw [gen_round0_break service te query hist tools h0 hm h1]
        refine ⟨fun h => ?_, fun h => ?_⟩
        · simp [List.get, round0Req, htools]
        · simp at h
  · rw [gen_no_tool_use service query hist tools (some te) h0]
    refine ⟨fun h => ?_, fun h => ?_⟩ <;> simp at h

/-- Witness for C2: a concrete three-call run in which the round-1 request
omits `tools` and the round-0 request still carries the catalog. -/
theorem final_round_omits_tools_witness :
    ((generate_response svcAllTool "q" none (some ["search_course_content"])
        (some okExec)).calls.get ⟨2, by decide⟩).request.tools = none ∧
    ((generate_response svcAllTool "q" none (some ["search_course_content"])
        (some okExec)).calls.get ⟨1, by decide⟩).request.tools =
      some ["search_course_content"] := by
  have h := final_round_omits_tools svcAllTool okExec "q" none
    (some ["search_course_content"]) (by decide)
  exact ⟨(h.2 (by decide)).1, (h.1 (by decide)).1⟩

/-- Claim C3: for every sequence of `k ≤ MAX_TOOL_ROUNDS` consecutive
tool_use responses (each with at least one tool_use block) followed by a
non-tool_use response, `generate_response` issues exactly `1 + k` model
calls, invokes `execute_tool` once per tool_use block of each tool_use
response in block order (`traceUpTo`), and returns the text extracted from
the final response; with `k = 0`, one model call and
`extract_text (service 0)`. -/
theorem tool_round_sequence_trace (service : Nat → Response)
    (te : String → List (String × String) → Except String String) (query : String)
    (hist : Option String) (tools : Option (List String)) (k : Nat)
    (hk : k ≤ MAX_TOOL_ROUNDS)
    (hrounds : ∀ i, i < k → (service i).stop_reason = "tool_use" ∧
        toolInvocations (service i).content ≠ [])
    (hlast : (service k).stop_reason ≠ "tool_use") :
    (generate_response service query hist tools (some te)).calls.length = 1 + k ∧
    (generate_response service query hist tools (some te)).toolTrace =
      traceUpTo service k ∧
    (generate_response service query hist tools (some te)).result =
      extract_text (service k) := by
  have hk2 : k ≤ 2 := hk
  interval_cases k
  · rw [gen_no_tool_use service query hist tools (some te) hlast]
    exact ⟨rfl, rfl, rfl⟩
  · obtain ⟨h0, hnb0⟩ := hrounds 0 (by norm_num)
    rw [gen_round0_break service te query hist tools h0 hnb0 hlast]
    exact ⟨rfl, rfl, rfl⟩
  · obtain ⟨h0, hnb0⟩ := hrounds 0 (by norm_num)
    obtain ⟨h1, hnb1⟩ := hrounds 1 (by norm_num)
    rw [gen_full service te query hist tools h0 hnb0 h1 hnb1]
    exact ⟨rfl, rfl, rfl⟩

/-- Witness for C3: a concrete one-round run (one tool_use response, then a
text response): two model calls, one tool invocation, final text returned. -/
theorem tool_round_sequence_trace_witness :
    (generate_response svcTwoCall "q" none (some ["search_course_content"])
        (some okExec)).calls.length = 1 + 1 ∧
    (generate_response svcTwoCall "q" none (some ["search_course_content"])
        (some okExec)).toolTrace = traceUpTo svcTwoCall 1 ∧
    (generate_response svcTwoCall "q" none (some ["search_course_content"])
        (some okExec)).result = extract_text (svcTwoCall 1) :=
  tool_round_sequence_trace svcTwoCall okExec "q" none (some ["search_course_content"]) 1
    (by decide)
    (fun i hi => by interval_cases i; exact ⟨rfl, by decide⟩)
    (by decide)

/-- Counterexample to C4 as stated: a run in which every response has
`stop_reason = tool_use` and at least one tool_use block, yet
`generate_response` does not return the exhausted-rounds string — the final
response leads with a text block, so `_extract_text` returns that text
("Partial thoughts so far.") instead. The call count `1 + MAX_TOOL_ROUNDS`
does hold. -/
theorem exhausted_rounds_text_block_counterexample :
    (svcC4 0).stop_reason = "tool_use" ∧ (svcC4 1).stop_reason = "tool_use" ∧
    (svcC4 2).stop_reason = "tool_use" ∧
    toolInvocations (svcC4 0).content ≠ [] ∧
    toolInvocations (svcC4 1).content ≠ [] ∧
    toolInvocations (svcC4 2).content ≠ [] ∧
    (generate_response svcC4 "q" none (some ["search_course_content"])
        (some okExec)).calls.length = 1 + MAX_TOOL_ROUNDS ∧
    (generate_response svcC4 "q" none (some ["search_course_content"])
        (some okExec)).result = "Partial thoughts so far." ∧
    (generate_response svcC4 "q" none (some ["search_course_content"])
        (some okExec)).result ≠
      "Could not generate a text response within the allowed tool-use rounds." := by
  decide

/-- Claim C4 (amended): if every model call through the round loop returns
`stop_reason = tool_use` with at least one tool_use block, and the final
response's first content block is a tool_use block, then `generate_response`
returns exactly "Could not generate a text response within the allowed
tool-use rounds." after exactly `1 + MAX_TOOL_ROUNDS` model calls, and this
string differs from the empty-content error string. -/
theorem exhausted_rounds_returns_error (service : Nat → Response)
    (te : String → List (String × String) → Except String String) (query : String)
    (hist : Option String) (tools : Option (List String))
    (hrounds : ∀ i, i < MAX_TOOL_ROUNDS → (service i).stop_reason = "tool_use" ∧
        toolInvocations (service i).content ≠ [])
    (_hlast : (service MAX_TOOL_ROUNDS).stop_reason = "tool_use")
    (hfirst : ∃ id name input rest,
        (service MAX_TOOL_ROUNDS).content = ContentBlock.toolUse id name input :: rest) :
    (generate_response service query hist tools (some te)).result =
      "Could not generate a text response within the allowed tool-use rounds." ∧
    (generate_response service query hist tools (some te)).calls.length =
      1 + MAX_TOOL_ROUNDS ∧
    "Could not generate a text response within the allowed tool-use rounds." ≠
      "Received empty response from AI service." := by
  obtain ⟨h0, hnb0⟩ := hrounds 0 (by decide)
  obtain ⟨h1, hnb1⟩ := hrounds 1 (by decide)
  obtain ⟨id, name, input, rest, hco⟩ := hfirst
  have hco2 : (service 2).content = ContentBlock.toolUse id name input :: rest := hco
  rw [gen_full service te query hist tools h0 hnb0 h1 hnb1]
  refine ⟨?_, rfl, by decide⟩
  show extract_text (service 2) = _
  simp [extract_text, hco2]

/-- Witness for C4 (amended): a service that always answers tool_use with a
single tool_use block exhausts all rounds and yields the exhaustion string. -/
theorem exhausted_rounds_returns_error_witness :
    (generate_response svcAllTool "q" none (some ["search_course_content"])
        (some okExec)).result =
      "Could not generate a text response within the allowed tool-use rounds." ∧
    (generate_response svcAllTool "q" none (some ["search_course_content"])
        (some okExec)).calls.length = 1 + MAX_TOOL_ROUNDS ∧
    "Could not generate a text response within the allowed tool-use rounds." ≠
      "Received empty response from AI service." :=
  exhausted_rounds_returns_error svcAllTool okExec "q" none (some ["search_course_content"])
    (fun i _ => ⟨rfl, by simp [svcAllTool, toolInvocations]⟩) rfl
    ⟨"tu_x", "search_course_content", [("query", "x")], [], rfl⟩

/-- Claim C5: an exception raised by `execute_tool` while dispatching a
tool_use block never escapes `generate_response` (the embedding is total):
the corresponding tool result keeps the block's id, has content
`"Error executing tool: " ++ message` and `is_error = true`, it is fed back
to the model in the next round's request (last message of the round-0
request), and the call completes with the text of the model's subsequent
answer. -/
theorem tool_error_isolated (service : Nat → Response)
    (te : String → List (String × String) → Except String String) (query : String)
    (hist : Option String) (tools : Option (List String))
    (id name : String) (input : List (String × String)) (msg : String)
    (pre rest : List ContentBlock)
    (hexc : te name input = Except.error msg)
    (hco : (service 0).content = pre ++ ContentBlock.toolUse id name input :: rest)
    (h0 : (service 0).stop_reason = "tool_use")
    (h1 : (service 1).stop_reason ≠ "tool_use") :
    runTools te (service 0).content =
      runTools te pre ++
        { tool_use_id := id, content := "Error executing tool: " ++ msg,
          is_error := some true } :: runTools te rest ∧
    (generate_response service query hist tools (some te)).result =
      extract_text (service 1) ∧
    (generate_response service query hist tools (some te)).calls.length = 2 ∧
    (generate_response service query hist tools (some te)).calls.getLast? =
      some ⟨round0Req service te query hist tools, service 1⟩ ∧
    (round0Req service te query hist tools).messages.getLast? =
      some ⟨"user", MsgContent.results (runTools te pre ++
        { tool_use_id := id, content := "Error executing tool: " ++ msg,
          is_error := some true } :: runTools te rest)⟩ := by
  have hrt : runTools te (service 0).content =
      runTools te pre ++
        { tool_use_id := id, content := "Error executing tool: " ++ msg,
          is_error := some true } :: runTools te rest := by
    rw [hco, runTools_append, runTools_cons_err te id name input msg rest hexc]
  have hnb0 : toolInvocations (service 0).content ≠ [] := by
    rw [hco, toolInvocations_append]
    simp [toolInvocations]
  rw [gen_round0_break service te query hist tools h0 hnb0 h1]
  refine ⟨hrt, rfl, rfl, by simp, ?_⟩
  simp [round0Req, hrt]

/-- Witness for C5: a tool manager that raises `Connection timeout` on the
single tool_use block of the first response. -/
theorem tool_error_isolated_witness :
    runTools errExec (svcTwoCall 0).content =
      runTools errExec [] ++
        { tool_use_id := "tu_1", content := "Error executing tool: " ++ "Connection timeout",
          is_error := some true } :: runTools errExec [] ∧
    (generate_response svcTwoCall "q" none (some ["search_course_content"])
        (some errExec)).result = extract_text (svcTwoCall 1) ∧
    (generate_response svcTwoCall "q" none (some ["search_course_content"])
        (some errExec)).calls.length = 2 ∧
    (generate_response svcTwoCall "q" none (some ["search_course_content"])
        (some errExec)).calls.getLast? =
      some ⟨round0Req svcTwoCall errExec "q" none (some ["search_course_content"]),
            svcTwoCall 1⟩ ∧
    (round0Req svcTwoCall errExec "q" none (some ["search_course_content"])).messages.getLast? =
      some ⟨"user", MsgContent.results (runTools errExec [] ++
        { tool_use_id := "tu_1", content := "Error executing tool: " ++ "Connection timeout",
          is_error := some true } :: runTools errExec [])⟩ :=
  tool_error_isolated svcTwoCall errExec "q" none (some ["search_course_content"])
    "tu_1" "search_course_content" [("query", "x")] "Connection timeout" [] []
    rfl rfl rfl (by decide)

/-- Counterexample to C6 as stated: when the malformed response
(`stop_reason = tool_use`, zero tool_use blocks) is the reply to the final
permitted round's call, the loop exits by exhaustion without reaching the
malformed check, and `generate_response` returns `_extract_text` of that
response ("odd reply" here) — a string containing neither "malformed" nor
"no tool_use". -/
theorem malformed_final_round_counterexample :
    (svcC6 2).stop_reason = "tool_use" ∧
    toolInvocations (svcC6 2).content = [] ∧
    (generate_response svcC6 "q" none (some ["search_course_content"])
        (some okExec)).calls.length = 3 ∧
    ((generate_response svcC6 "q" none (some ["search_course_content"])
        (some okExec)).calls.getLast?).map (fun c => c.response) = some (svcC6 2) ∧
    (generate_response svcC6 "q" none (some ["search_course_content"])
        (some okExec)).result = "odd reply" ∧
    subOf "malformed".toList
        ((generate_response svcC6 "q" none (some ["search_course_content"])
          (some okExec)).result).toList = false ∧
    subOf "no tool_use".toList
        ((generate_response svcC6 "q" none (some ["search_course_content"])
          (some okExec)).result).toList = false := by
  decide

/-- Claim C6 (amended): if a response examined by a round-loop iteration —
the initial response, or the reply to a non-final round's call — has
`stop_reason = tool_use` but zero tool_use blocks, `generate_response`
terminates immediately with the string "Received malformed tool_use
response: no tool_use blocks found.", dispatching no tool of that response
and issuing no further model call; when this occurs on the initial response,
exactly one model call total was made. (The reply to the final permitted
round's call is never examined by the malformed check.) -/
theorem malformed_tool_use_terminates (service : Nat → Response)
    (te : String → List (String × String) → Except String String) (query : String)
    (hist : Option String) (tools : Option (List String)) :
    ((service 0).stop_reason = "tool_use" →
     toolInvocations (service 0).content = [] →
      (generate_response service query hist tools (some te)).result =
        "Received malformed tool_use response: no tool_use blocks found." ∧
      (generate_response service query hist tools (some te)).calls.length = 1 ∧
      (generate_response service query hist tools (some te)).toolTrace = []) ∧
    ((service 0).stop_reason = "tool_use" →
     toolInvocations (service 0).content ≠ [] →
     (service 1).stop_reason = "tool_use" →
     toolInvocations (service 1).content = [] →
      (generate_response service query hist tools (some te)).result =
        "Received malformed tool_use response: no tool_use blocks found." ∧
      (generate_response service query hist tools (some te)).calls.length = 2 ∧
      (generate_response service query hist tools (some te)).toolTrace =
        toolInvocations (service 0).content) := by
  constructor
  · intro h0 hm
    rw [gen_malformed0 service te query hist tools h0 hm]
    exact ⟨rfl, rfl, rfl⟩
  · intro h0 hnb0 h1 hm1
    rw [gen_malformed1 service te query hist tools h0 hnb0 h1 hm1]
    exact ⟨rfl, rfl, rfl⟩

/-- Witness for C6 (amended): a malformed initial response yields the
malformed-string after one model call and zero tool dispatches. -/
theorem malformed_tool_use_terminates_witness :
    (generate_response svcMalformed "q" none (some ["search_course_content"])
        (some okExec)).result =
      "Received malformed tool_use response: no tool_use blocks found." ∧
    (generate_response svcMalformed "q" none (some ["search_course_content"])
        (some okExec)).calls.length = 1 ∧
    (generate_response svcMalformed "q" none (some ["search_course_content"])
        (some okExec)).toolTrace = [] :=
  (malformed_tool_use_terminates svcMalformed okExec "q" none
    (some ["search_course_content"])).1 rfl rfl

/-- Claim C7: when the initial response requests tools but no
`tool_manager` was supplied, `generate_response` returns the fixed fallback
string naming the tool manager and issues exactly one model call. -/
theorem missing_tool_manager_fallback (service : Nat → Response) (query : String)
    (hist : Option String) (tools : Option (List String))
    (h0 : (service 0).stop_reason = "tool_use") :
    (generate_response service query hist tools none).result =
      "Unable to search: tool manager not configured." ∧
    (generate_response service query hist tools none).calls.length = 1 := by
  rw [gen_no_manager service query hist tools h0]
  exact ⟨rfl, rfl⟩

/-- Witness for C7: a concrete tool_use response with `tool_manager=None`. -/
theorem missing_tool_manager_fallback_witness :
    (generate_response svcAllTool "q" none (some ["search_course_content"]) none).result =
      "Unable to search: tool manager not configured." ∧
    (generate_response svcAllTool "q" none (some ["search_course_content"]) none).calls.length = 1 :=
  missing_tool_manager_fallback svcAllTool "q" none (some ["search_course_content"]) rfl

/-- Counterexample to C8 as stated: on a successful dispatch the engine
builds the tool-result dict without any `is_error` key (`is_error = none` in
the embedding), not with `is_error = false` (`some false`); the keyless
result is what is fed back to the model in the round-0 request. -/
theorem success_result_no_is_error_counterexample :
    runTools okExec [ContentBlock.toolUse "tu_1" "search_course_content" [("query", "x")]] =
      [{ tool_use_id := "tu_1", content := "ok result", is_error := none }] ∧
    ({ tool_use_id := "tu_1", content := "ok result",
        is_error := none } : ToolResultBlock).is_error ≠ some false ∧
    ((generate_response svcTwoCall "q" none (some ["search_course_content"])
        (some okExec)).calls.get? 1).map (fun c => c.request.messages.getLast?) =
      some (some ⟨"user", MsgContent.results
        [{ tool_use_id := "tu_1", content := "ok result", is_error := none }]⟩) := by
  decide

/-- Claim C8 (amended): for every tool_use block whose dispatch succeeds,
the tool result built by the engine is `{tool_use_id: block.id, content:
the returned string}` with the `is_error` key absent (not present with
value false); only failed dispatches carry `is_error` (as true). -/
theorem success_result_omits_is_error
    (te : String → List (String × String) → Except String String)
    (id name : String) (input : List (String × String)) (res : String)
    (pre rest : List ContentBlock)
    (hok : te name input = Except.ok res) :
    runTools te (pre ++ ContentBlock.toolUse id name input :: rest) =
      runTools te pre ++
        { tool_use_id := id, content := res, is_error := none } :: runTools te rest ∧
    ({ tool_use_id := id, content := res, is_error := none } : ToolResultBlock).is_error =
      none :=
  ⟨by rw [runTools_append, runTools_cons_ok te id name input res rest hok], rfl⟩

/-- Witness for C8 (amended): a concrete successful dispatch. -/
theorem success_result_omits_is_error_witness :
    runTools okExec ([] ++ ContentBlock.toolUse "tu_1" "search_course_content"
        [("query", "x")] :: []) =
      runTools okExec [] ++
        { tool_use_id := "tu_1", content := "ok result", is_error := none } ::
          runTools okExec [] ∧
    ({ tool_use_id := "tu_1", content := "ok result",
        is_error := none } : ToolResultBlock).is_error = none :=
  success_result_omits_is_error okExec "tu_1" "search_course_content" [("query", "x")]
    "ok result" [] [] rfl

/-- Claim C9: `_extract_text` returns the empty-content error string on an
empty content sequence, the first block's text when the first block has a
`text` field, the exhausted-rounds string when the first block is a
tool_use block, and the unexpected-format string otherwise; the three error
strings are pairwise distinct. -/
theorem extract_text_cases (r : Response) :
    (r.content = [] → extract_text r = "Received empty response from AI service.") ∧
    (∀ t rest, r.content = ContentBlock.text t :: rest → extract_text r = t) ∧
    (∀ id name input rest,
      r.content = ContentBlock.toolUse id name input :: rest →
        extract_text r =
          "Could not generate a text response within the allowed tool-use rounds.") ∧
    (∀ rest, r.content = ContentBlock.other :: rest →
        extract_text r = "Received unexpected response format from AI service.") ∧
    ("Received empty response from AI service." ≠
        "Could not generate a text response within the allowed tool-use rounds." ∧
     "Received empty response from AI service." ≠
        "Received unexpected response format from AI service." ∧
     "Could not generate a text response within the allowed tool-use rounds." ≠
        "Received unexpected response format from AI service.") := by
  refine ⟨fun h => ?_, fun t rest h => ?_, fun id name input rest h => ?_,
    fun rest h => ?_, by decide⟩ <;> simp [extract_text, h]

/-- Witness for C9: the empty-content case at a concrete response. -/
theorem extract_text_cases_witness :
    extract_text ⟨"end_turn", []⟩ = "Received empty response from AI service." :=
  (extract_text_cases ⟨"end_turn", []⟩).1 rfl

/-- Claim C10: at every model call issued inside `_handle_tool_execution`,
the messages list strictly alternates roles starting with the original user
query turn and ends with a user turn whose content is the ordered list of
tool_result blocks for the immediately preceding assistant turn — one
tool_result per tool_use block of that turn, in block order, with matching
`tool_use_id`s (`runTools_map_ids`). -/
theorem messages_alternation_invariant (service : Nat → Response)
    (te : String → List (String × String) → Except String String) (query : String)
    (hist : Option String) (tools : Option (List String)) :
    ∀ c ∈ (generate_response service query hist tools (some te)).calls.drop 1,
      altRoles true c.request.messages = true ∧
      c.request.messages.head? = some ⟨"user", MsgContent.ofString query⟩ ∧
      ∃ pre bs, c.request.messages =
          pre ++ [⟨"assistant", MsgContent.blocks bs⟩,
                  ⟨"user", MsgContent.results (runTools te bs)⟩] ∧
        (runTools te bs).map (fun t => t.tool_use_id) = toolUseIds bs := by
  by_cases h0 : (service 0).stop_reason = "tool_use"
  · by_cases hm : toolInvocations (service 0).content = []
    · rw [gen_malformed0 service te query hist tools h0 hm]
      intro c hc; simp at hc
    · by_cases h1 : (service 1).stop_reason = "tool_use"
      · by_cases hm1 : toolInvocations (service 1).content = []
        · rw [gen_malformed1 service te query hist tools h0 hm h1 hm1]
          intro c hc
          simp at hc
          subst hc
          refine ⟨by simp [round0Req, altRoles], by simp [round0Req], ?_⟩
          exact ⟨[⟨"user", MsgContent.ofString query⟩], (service 0).content,
            by simp [round0Req], runTools_map_ids te _⟩
        · rw [gen_full service te query hist tools h0 hm h1 hm1]
          intro c hc
          simp at hc
          rcases hc with hc | hc <;> subst hc
          · refine ⟨by simp [round0Req, altRoles], by simp [round0Req], ?_⟩
            exact ⟨[⟨"user", MsgContent.ofString query⟩], (service 0).content,
              by simp [round0Req], runTools_map_ids te _⟩
          · refine ⟨by simp [round1Req, altRoles], by simp [round1Req], ?_⟩
            exact ⟨[⟨"user", MsgContent.ofString query⟩,
                    ⟨"assistant", MsgContent.blocks (service 0).content⟩,
                    ⟨"user", MsgContent.results (runTools te (service 0).content)⟩],
                   (service 1).content,
              by simp [round1Req], runTools_map_ids te _⟩
      · rw [gen_round0_break service te query hist tools h0 hm h1]
        intro c hc
        simp at hc
        subst hc
        refine ⟨by simp [round0Req, altRoles], by simp [round0Req], ?_⟩
        exact ⟨[⟨"user", MsgContent.ofString query⟩], (service 0).content,
          by simp [round0Req], runTools_map_ids te _⟩
  · rw [gen_no_tool_use service query hist tools (some te) h0]
    intro c hc; simp at hc

/-- Witness for C10: the round-0 call record `cW` of a concrete run
satisfies the alternation invariant. -/
theorem messages_alternation_invariant_witness :
    altRoles true cW.request.messages = true ∧
    cW.request.messages.head? = some ⟨"user", MsgContent.ofString "q"⟩ := by
  have hmem : cW ∈ (generate_response svcTwoCall "q" none
      (some ["search_course_content"]) (some okExec)).calls.drop 1 := by
    rw [gen_round0_break svcTwoCall okExec "q" none (some ["search_course_content"])
      rfl (by decide) (by decide)]
    simp [cW]
  have h := messages_alternation_invariant svcTwoCall okExec "q" none
    (some ["search_course_content"]) cW hmem
  exact ⟨h.1, h.2.1⟩

end RagChatbot
